import Mathlib

/-
Verification of the packaging script `setup.py` of the `typing` repository.

The script has three behavioural pieces:
  * a version gate on `sys.version_info` (lines 6-10),
  * a source-layout selection `{2: 'python2', 3: '.'}[sys.version_info.major]`
    (line 24),
  * a single call to the external `setup` entry point with literal metadata
    (lines 38-49).

We embed interpreter version tuples as `List Nat` with Python's lexicographic
tuple comparison, and the observable behaviour of one run of the script as a
trace of events (stderr writes, process exit, dictionary-lookup failure,
invocation of the external `setup` entry point).
-/

namespace SetupPy

/-- Python's `<` on integer tuples: lexicographic, a proper prefix is smaller. -/
def tupLt : List Nat → List Nat → Bool
  | _, [] => false
  | [], _ :: _ => true
  | a :: as, b :: bs =>
    if a < b then true
    else if b < a then false
    else tupLt as bs

/-- `sys.version_info.major`: the leading component of the version tuple. -/
def major (v : List Nat) : Nat := v.headD 0

/-- The condition of the version gate, line 6 of `setup.py`:
`sys.version_info < (2, 7, 0) or (3,) < sys.version_info < (3, 2, 0)`. -/
def gateRejects (v : List Nat) : Bool :=
  tupLt v [2, 7, 0] || (tupLt [3] v && tupLt v [3, 2, 0])

/-- The diagnostic written to `sys.stderr` when the gate rejects (lines 7-9). -/
def errorMessage : String :=
  "ERROR: You need either Python2 2.7 or later or Python3 3.2 or later to install the typing package.\n"

/-- Line 12: `version = '0.0.1.dev1'`. -/
def version : String := "0.0.1.dev1"

/-- Line 13: `description = 'Type annotations for Python'`. -/
def description : String := "Type annotations for Python"

/-- Python's `str.lstrip()` with no argument: drop leading whitespace. -/
def pyLstrip (s : String) : String :=
  String.mk (s.data.dropWhile Char.isWhitespace)

/-- Lines 14-22: the triple-quoted literal, with `.lstrip()` applied. -/
def long_description : String :=
  pyLstrip "\nTyping -- Type annotations for Python\n\nTyping is intended as a standard notation for Python function and variable type\nannotations. The notation can be used for documenting code in a concise,\nstandard format, and it has been designed to also be used by static and runtime\ntype checkers, static analyzers, IDEs and other tools. The typing module\noriginates from the mypy optional static type checker for Python.\n"

/-- The two-entry dictionary `{2: 'python2', 3: '.'}` of line 24. -/
def package_dir_dict : List (Nat × String) := [(2, "python2"), (3, ".")]

/-- Python dictionary subscription `d[k]` on an integer-keyed dictionary:
`some` of the value when the key is present, `none` standing for the
`KeyError` that subscription raises on a missing key. -/
def dictLookup (d : List (Nat × String)) (k : Nat) : Option String :=
  (d.find? (fun p => p.1 == k)).map Prod.snd

/-- Line 24: `package_dir = {2: 'python2', 3: '.'}[sys.version_info.major]`. -/
def package_dir (v : List Nat) : Option String :=
  dictLookup package_dir_dict (major v)

/-- Lines 25-36: the classifier list. -/
def classifiers : List String :=
  [ "Development Status :: 2 - Pre-Alpha",
    "Environment :: Console",
    "Intended Audience :: Developers",
    "License :: OSI Approved :: MIT License",
    "Operating System :: POSIX",
    "Programming Language :: Python :: 2.7",
    "Programming Language :: Python :: 3.2",
    "Programming Language :: Python :: 3.3",
    "Programming Language :: Python :: 3.4",
    "Topic :: Software Development" ]

/-- The keyword-argument record passed to the external `setup` entry point
(lines 38-49). -/
structure SetupArgs where
  name : String
  version : String
  description : String
  long_description : String
  author : String
  author_email : String
  url : String
  license : String
  platforms : List String
  package_dir : List (String × String)
  py_modules : List String
  classifiers : List String
deriving DecidableEq, Repr

/-- The record of lines 38-49, parametrised by the selected source directory
`d` (the value of the `package_dir` variable). -/
def mkSetupArgs (d : String) : SetupArgs :=
  { name := "typing",
    version := SetupPy.version,
    description := SetupPy.description,
    long_description := SetupPy.long_description,
    author := "Jukka Lehtosalo",
    author_email := "jukka.lehtosalo@iki.fi",
    url := "http://www.mypy-lang.org/",
    license := "MIT License",
    platforms := ["POSIX"],
    package_dir := [("", d)],
    py_modules := ["typing"],
    classifiers := SetupPy.classifiers }

/-- One observable event of a run of the script. -/
inductive Event where
  | stderrWrite : String → Event
  | exited : Nat → Event
  | lookupFail : Nat → Event
  | setupInvoke : SetupArgs → Event
deriving DecidableEq, Repr

/-- `true` exactly on invocations of the external `setup` entry point. -/
def isSetupInvoke : Event → Bool
  | Event.setupInvoke _ => true
  | _ => false

/-- The trace of one run of the script on interpreter version tuple `v`:
the gate either writes the diagnostic and exits with status 1, or the
dictionary subscription of line 24 is evaluated, either raising `KeyError`
(no entry for the major version) or yielding the directory that is passed,
inside the metadata record, to the single `setup` call. -/
def scriptTrace (v : List Nat) : List Event :=
  if gateRejects v then
    [Event.stderrWrite errorMessage, Event.exited 1]
  else
    match package_dir v with
    | none => [Event.lookupFail (major v)]
    | some d => [Event.setupInvoke (mkSetupArgs d)]

/-- Outcome of the whole process: the script exits itself (gate), raises an
uncaught `KeyError`, or hands control to the external toolchain. -/
inductive ProcResult where
  | exitedWith : Nat → String → ProcResult
  | keyError : Nat → ProcResult
  | toolchain : Nat → ProcResult
deriving DecidableEq, Repr

/-- The process outcome on version tuple `v`, parametric in the behaviour
`tc` of the external packaging toolchain: after the gate and the lookup the
script performs no handling of its own, so the toolchain's result is the
process result. -/
def processWith (v : List Nat) (tc : SetupArgs → ProcResult) : ProcResult :=
  if gateRejects v then ProcResult.exitedWith 1 errorMessage
  else
    match package_dir v with
    | none => ProcResult.keyError (major v)
    | some d => tc (mkSetupArgs d)

/-- The inputs a run of the script may observe; the script reads only
`sys.version_info` (the `setup` call consumes `argv` inside the external
toolchain, not in this script). -/
structure Env where
  version_info : List Nat
  argv : List String
  environ : List (String × String)

/-- A run of the script from a full environment: the source reads no input
other than `sys.version_info`. -/
def runEnv (e : Env) : List Event := scriptTrace e.version_info

end SetupPy

namespace SetupPy

theorem tupLt_nil_right (xs : List Nat) : tupLt xs [] = false := by
  cases xs <;> rfl

theorem two_le_head_of_not_lt (a : Nat) (as : List Nat)
    (h : tupLt (a :: as) [2, 7, 0] = false) : 2 ≤ a := by
  by_contra hc
  push_neg at hc
  simp [tupLt, hc] at h

theorem tupLt_cons_single_zero (b : Nat) (rest : List Nat) :
    tupLt (b :: rest) [0] = false := by
  simp only [tupLt]
  rw [if_neg (Nat.not_lt_zero b)]
  by_cases hb : 0 < b
  · simp [hb]
  · simp [hb, tupLt_nil_right]

/-- Claim C1: every interpreter version tuple (`sys.version_info` always has
at least a major and a minor component, so length at least two) that is below
`(2, 7, 0)`, or has major version 3 and is below `(3, 2, 0)`, makes the script
write the diagnostic to stderr and exit with status 1, with no directory
selection and no metadata assembly in the trace. -/
theorem gate_rejects_unsupported_versions (v : List Nat) (hlen : 2 ≤ v.length)
    (h : tupLt v [2, 7, 0] = true ∨ (major v = 3 ∧ tupLt v [3, 2, 0] = true)) :
    scriptTrace v = [Event.stderrWrite errorMessage, Event.exited 1] := by
  have hg : gateRejects v = true := by
    rcases h with h | ⟨h3, hlt⟩
    · simp [gateRejects, h]
    · rcases v with _ | ⟨a, v'⟩
      · simp at hlen
      rcases v' with _ | ⟨b, rest⟩
      · simp at hlen
      have ha : a = 3 := h3
      subst ha
      unfold gateRejects
      rw [hlt]
      simp [tupLt]
  simp [scriptTrace, hg]

theorem gate_rejects_unsupported_versions_witness :
    2 ≤ ([2, 6, 5] : List Nat).length ∧
      scriptTrace [2, 6, 5] = [Event.stderrWrite errorMessage, Event.exited 1] :=
  ⟨by decide, gate_rejects_unsupported_versions [2, 6, 5] (by decide) (Or.inl (by decide))⟩

/-- Claim C2: an interpreter version tuple (length at least two) at or above
`(2, 7, 0)` and below `(3, 0)` passes the gate, and the run invokes `setup`
with the record built from the directory mapped to key 2, the string
`python2`. -/
theorem selects_python2_below_three (v : List Nat) (hlen : 2 ≤ v.length)
    (h1 : tupLt v [2, 7, 0] = false) (h2 : tupLt v [3, 0] = true) :
    gateRejects v = false ∧
      scriptTrace v = [Event.setupInvoke (mkSetupArgs "python2")] := by
  rcases v with _ | ⟨a, v'⟩
  · simp at hlen
  rcases v' with _ | ⟨b, rest⟩
  · simp at hlen
  have ha2 : 2 ≤ a := two_le_head_of_not_lt a (b :: rest) h1
  have ha : a = 2 := by
    simp only [tupLt] at h2
    by_cases hlt : a < 3
    · omega
    · rw [if_neg hlt] at h2
      by_cases hgt : 3 < a
      · rw [if_pos hgt] at h2
        exact absurd h2 (by simp)
      · rw [if_neg hgt] at h2
        simp at h2
  subst ha
  have hg : gateRejects (2 :: b :: rest) = false := by
    unfold gateRejects
    rw [h1]
    simp [tupLt]
  refine ⟨hg, ?_⟩
  simp [scriptTrace, hg]
  rfl

theorem selects_python2_below_three_witness :
    gateRejects [2, 7, 10] = false ∧
      scriptTrace [2, 7, 10] = [Event.setupInvoke (mkSetupArgs "python2")] :=
  selects_python2_below_three [2, 7, 10] (by decide) (by decide) (by decide)

/-- Claim C3, counterexample: the tuple `(4, 0, 0)` is at or above
`(3, 2, 0)` and passes the version gate, yet the directory selection raises
a lookup error instead of returning the directory mapped to key 3. -/
theorem selector_keyerror_at_major_four :
    tupLt [4, 0, 0] [3, 2, 0] = false ∧ gateRejects [4, 0, 0] = false ∧
      package_dir [4, 0, 0] = none ∧
      scriptTrace [4, 0, 0] = [Event.lookupFail 4] :=
  ⟨by decide, by decide, rfl, rfl⟩

/-- Claim C3, amended: every version tuple with major version 3 that is at or
above `(3, 2, 0)` passes the gate, and the run invokes `setup` with the
record built from the directory mapped to key 3, the string `.`. -/
theorem selects_dot_for_python3 (v : List Nat) (hmaj : major v = 3)
    (h : tupLt v [3, 2, 0] = false) :
    gateRejects v = false ∧
      scriptTrace v = [Event.setupInvoke (mkSetupArgs ".")] := by
  rcases v with _ | ⟨a, rest⟩
  · exact absurd hmaj (by decide)
  have ha : a = 3 := hmaj
  subst ha
  have hg : gateRejects (3 :: rest) = false := by
    unfold gateRejects
    rw [h]
    simp [tupLt]
  refine ⟨hg, ?_⟩
  simp [scriptTrace, hg]
  rfl

theorem selects_dot_for_python3_witness :
    gateRejects [3, 2, 0] = false ∧
      scriptTrace [3, 2, 0] = [Event.setupInvoke (mkSetupArgs ".")] :=
  selects_dot_for_python3 [3, 2, 0] rfl (by decide)

end SetupPy

namespace SetupPy

/-- Claim C4: whenever the version gate passes, any record handed to the
external `setup` entry point carries the literal name `typing`, version
`0.0.1.dev1` and license `MIT License`. -/
theorem metadata_contains_literals (v : List Nat) (args : SetupArgs)
    (hg : gateRejects v = false)
    (hmem : Event.setupInvoke args ∈ scriptTrace v) :
    args.name = "typing" ∧ args.version = "0.0.1.dev1" ∧
      args.license = "MIT License" := by
  simp only [scriptTrace, hg, if_false, Bool.false_eq_true] at hmem
  cases hpd : package_dir v with
  | none =>
    rw [hpd] at hmem
    simp at hmem
  | some d =>
    rw [hpd] at hmem
    simp at hmem
    subst hmem
    exact ⟨rfl, rfl, rfl⟩

theorem metadata_contains_literals_witness :
    (mkSetupArgs ".").name = "typing" ∧
      (mkSetupArgs ".").version = "0.0.1.dev1" ∧
      (mkSetupArgs ".").license = "MIT License" :=
  metadata_contains_literals [3, 4, 0] (mkSetupArgs ".") rfl
    (by rw [show scriptTrace [3, 4, 0] = [Event.setupInvoke (mkSetupArgs ".")] from rfl]
        exact List.mem_singleton.mpr rfl)

/-- Claim C5, counterexample: the tuple `(4, 0, 0)` passes the version gate
although its major component is neither 2 nor 3, so the gate does not
restrict execution to major versions 2 and 3 and the lookup-error branch is
reachable after the gate. -/
theorem gate_passes_major_four :
    gateRejects [4, 0, 0] = false ∧
      ¬(major [4, 0, 0] = 2 ∨ major [4, 0, 0] = 3) := by
  decide

/-- Claim C5, amended: among version tuples whose major component is at most
3, the gate only lets majors 2 and 3 through: every nonempty tuple that
passes the gate and has major at most 3 has major exactly 2 or 3. Tuples
with major 4 or higher also pass the gate, so the lookup-error branch stays
reachable for them. -/
theorem gate_pass_major_two_or_three (v : List Nat) (hne : v ≠ [])
    (hg : gateRejects v = false) (hle : major v ≤ 3) :
    major v = 2 ∨ major v = 3 := by
  rcases v with _ | ⟨a, rest⟩
  · exact absurd rfl hne
  have h1 : tupLt (a :: rest) [2, 7, 0] = false := by
    have := hg
    unfold gateRejects at this
    exact (Bool.or_eq_false_iff.mp this).1
  have ha2 : 2 ≤ a := two_le_head_of_not_lt a rest h1
  have hmaj : major (a :: rest) = a := rfl
  rw [hmaj] at hle ⊢
  omega

theorem gate_pass_major_two_or_three_witness :
    major [3, 9, 1] = 2 ∨ major [3, 9, 1] = 3 :=
  gate_pass_major_two_or_three [3, 9, 1] (by decide) rfl (by decide)

/-- Claim C6: looking up any key other than 2 and 3 in the two-entry
dictionary `{2: 'python2', 3: '.'}` yields no value (the `KeyError` case),
never a default directory. -/
theorem lookup_fails_on_unlisted_major (k : Nat) (h2 : k ≠ 2) (h3 : k ≠ 3) :
    dictLookup package_dir_dict k = none := by
  have b2 : ((2 : Nat) == k) = false := beq_eq_false_iff_ne.mpr (Ne.symm h2)
  have b3 : ((3 : Nat) == k) = false := beq_eq_false_iff_ne.mpr (Ne.symm h3)
  simp [dictLookup, package_dir_dict, List.find?, b2, b3]

theorem lookup_fails_on_unlisted_major_witness :
    dictLookup package_dir_dict 4 = none :=
  lookup_fails_on_unlisted_major 4 (by decide) (by decide)

/-- Claim C7: for every version tuple and every behaviour of the external
toolchain, the process result is exit status 1 with the diagnostic exactly
on gate rejection; otherwise the script adds no handling of its own: when
the directory lookup succeeds the process result is exactly what the
toolchain produces, and when it fails the uncaught lookup error is the
result. -/
theorem exit_code_discipline (v : List Nat) (tc : SetupArgs → ProcResult) :
    (gateRejects v = true →
        processWith v tc = ProcResult.exitedWith 1 errorMessage) ∧
      (gateRejects v = false → ∀ d, package_dir v = some d →
        processWith v tc = tc (mkSetupArgs d)) ∧
      (gateRejects v = false → package_dir v = none →
        processWith v tc = ProcResult.keyError (major v)) := by
  refine ⟨?_, ?_, ?_⟩
  · intro hg
    simp [processWith, hg]
  · intro hg d hd
    simp [processWith, hg, hd]
  · intro hg hd
    simp [processWith, hg, hd]

theorem exit_code_discipline_witness :
    processWith [2, 6, 0] (fun _ => ProcResult.toolchain 0) =
        ProcResult.exitedWith 1 errorMessage ∧
      processWith [3, 3, 0] (fun _ => ProcResult.toolchain 7) =
        ProcResult.toolchain 7 :=
  ⟨(exit_code_discipline [2, 6, 0] (fun _ => ProcResult.toolchain 0)).1 rfl,
   (exit_code_discipline [3, 3, 0] (fun _ => ProcResult.toolchain 7)).2.1 rfl
     "." rfl⟩

/-- Claim C8, counterexample: on the tuple `(4, 0, 0)` the version gate
passes yet the run contains no invocation of the external `setup` entry
point, so passing the gate alone does not guarantee one `setup` call. -/
theorem no_setup_invocation_at_major_four :
    gateRejects [4, 0, 0] = false ∧
      (scriptTrace [4, 0, 0]).countP isSetupInvoke = 0 :=
  ⟨by decide, rfl⟩

/-- Claim C8, amended: whenever the version gate passes and the major
version is 2 or 3 (equivalently, the directory lookup succeeds), the run
invokes the external `setup` entry point exactly once, with the fixed
record built from the selected directory, whose name is `typing` and whose
module list is the single module `typing`. -/
theorem setup_invoked_exactly_once (v : List Nat)
    (hg : gateRejects v = false) (hm : major v = 2 ∨ major v = 3) :
    ∃ d, package_dir v = some d ∧
      scriptTrace v = [Event.setupInvoke (mkSetupArgs d)] ∧
      (scriptTrace v).countP isSetupInvoke = 1 ∧
      (mkSetupArgs d).name = "typing" ∧
      (mkSetupArgs d).py_modules = ["typing"] := by
  have hpd : ∃ d, package_dir v = some d := by
    rcases hm with h | h
    · refine ⟨"python2", ?_⟩
      show dictLookup package_dir_dict (major v) = some "python2"
      rw [h]
      rfl
    · refine ⟨".", ?_⟩
      show dictLookup package_dir_dict (major v) = some "."
      rw [h]
      rfl
  rcases hpd with ⟨d, hd⟩
  have htr : scriptTrace v = [Event.setupInvoke (mkSetupArgs d)] := by
    simp only [scriptTrace, hg, if_false, Bool.false_eq_true]
    rw [hd]
  refine ⟨d, hd, htr, ?_, rfl, rfl⟩
  rw [htr]
  rfl

theorem setup_invoked_exactly_once_witness :
    ∃ d, package_dir [2, 7, 5] = some d ∧
      scriptTrace [2, 7, 5] = [Event.setupInvoke (mkSetupArgs d)] ∧
      (scriptTrace [2, 7, 5]).countP isSetupInvoke = 1 ∧
      (mkSetupArgs d).name = "typing" ∧
      (mkSetupArgs d).py_modules = ["typing"] :=
  setup_invoked_exactly_once [2, 7, 5] rfl (Or.inl rfl)

/-- Claim C9: the 3.x range check of the gate is strict at its lower bound:
the tuple `(3,)` is not below itself, passes the gate, and the run invokes
`setup` with the directory `.`; and apart from tuples below `(2, 7, 0)`,
the gate rejects a tuple only when it is strictly above `(3,)` and strictly
below `(3, 2, 0)`. -/
theorem gate_lower_bound_strict :
    tupLt [3] [3] = false ∧ gateRejects [3] = false ∧
      scriptTrace [3] = [Event.setupInvoke (mkSetupArgs ".")] ∧
      ∀ v : List Nat, tupLt v [2, 7, 0] = false → gateRejects v = true →
        tupLt [3] v = true ∧ tupLt v [3, 2, 0] = true := by
  refine ⟨by decide, by decide, rfl, ?_⟩
  intro v h1 hg
  unfold gateRejects at hg
  rw [h1] at hg
  simpa using hg

theorem gate_lower_bound_strict_witness :
    gateRejects [3] = false :=
  gate_lower_bound_strict.2.1

/-- Claim C10: the run is deterministic in the interpreter version tuple:
two environments with the same `sys.version_info` give the same gate
decision, the same selected directory, and the same trace (hence identical
metadata records), whatever their other inputs. -/
theorem run_deterministic_in_version (e1 e2 : Env)
    (h : e1.version_info = e2.version_info) :
    gateRejects e1.version_info = gateRejects e2.version_info ∧
      package_dir e1.version_info = package_dir e2.version_info ∧
      runEnv e1 = runEnv e2 := by
  refine ⟨by rw [h], by rw [h], ?_⟩
  unfold runEnv
  rw [h]

theorem run_deterministic_in_version_witness :
    gateRejects (Env.mk [3, 4, 0] ["setup.py", "install"] []).version_info =
        gateRejects (Env.mk [3, 4, 0] ["setup.py", "sdist"] [("LANG", "C")]).version_info ∧
      package_dir (Env.mk [3, 4, 0] ["setup.py", "install"] []).version_info =
        package_dir (Env.mk [3, 4, 0] ["setup.py", "sdist"] [("LANG", "C")]).version_info ∧
      runEnv (Env.mk [3, 4, 0] ["setup.py", "install"] []) =
        runEnv (Env.mk [3, 4, 0] ["setup.py", "sdist"] [("LANG", "C")]) :=
  run_deterministic_in_version
    (Env.mk [3, 4, 0] ["setup.py", "install"] [])
    (Env.mk [3, 4, 0] ["setup.py", "sdist"] [("LANG", "C")]) rfl

end SetupPy
